import Mathlib

/-!
Shallow embedding of the PDF structure parser in `src/lib/pdfParser.ts` and
verification of the specification claims about it.

Modelling conventions:
* A byte buffer is a `List Nat` of values `0..255`; a JS string produced by
  `String.fromCharCode` over bytes is likewise a `List Nat` of char codes
  (`JsStr`).
* JS numbers that can be `NaN` are modelled as `JsNum := Option ℚ`, with
  `none` playing the role of `NaN` (comparisons with `NaN` are `false`,
  arithmetic propagates it), and otherwise as exact rationals.
* The JS regexes of the source are compiled by hand into scanners that
  reproduce the exact ECMAScript matching behaviour (leftmost match, greedy
  quantifiers with backtracking where the character classes overlap, the
  restricted `\s` class over char codes < 256, namely
  tab, LF, VT, FF, CR, space and NBSP).
* `DecompressionStream('deflate')` is an injected capability
  `inflate : JsStr → Option JsStr`; `none` models a thrown inflate error.
* The one source of unbounded recursion, `collectPages`, is modelled with an
  explicit recursion-depth fuel; `none` at the top level of
  `parsePdfStructure` means the recursion exceeds every finite depth, i.e.
  the JS function does not terminate normally.  Loops of the source that are
  intrinsically bounded by a window (the xref table line loop, the global
  regex loop) are given the window size as fuel, which each iteration's
  consumption of at least one element makes sufficient.
-/

namespace PdfParser

set_option maxRecDepth 400000

abbrev JsStr := List Nat

/-- JS regex `\s` restricted to char codes below 256: tab, LF, VT, FF, CR,
space, NBSP.  The same set is removed by `String.prototype.trim`. -/
def jsIsSpace (c : Nat) : Bool :=
  c = 9 || c = 10 || c = 11 || c = 12 || c = 13 || c = 32 || c = 160

/-- JS regex `\d`. -/
def jsIsDigit (c : Nat) : Bool := 48 ≤ c && c ≤ 57

/-- the character class `[\d.-]` used for numeric captures. -/
def jsIsNumCls (c : Nat) : Bool := jsIsDigit c || c = 46 || c = 45

/-- decimal value of a digit string (JS `parseInt` on an all-digit string). -/
def natOfDigits (s : JsStr) : Nat := s.foldl (fun n c => n * 10 + (c - 48)) 0

/-- `String.prototype.trim`. -/
def trim (s : JsStr) : JsStr :=
  ((s.dropWhile jsIsSpace).reverse.dropWhile jsIsSpace).reverse

/-- whitespace-separated tokens, via an accumulator.  This agrees with the JS
idiom `str.trim().split(/\s+/)` at every call site of the source: the
only difference is that an all-whitespace string yields `[]` here and `[""]`
in JS, and each call site only measures the length against a bound that both
fail, or maps `parseInt` over the tokens, where the `""` token would give
`NaN` that the same length bound discards. -/
def wsTokensAux : JsStr → JsStr → List JsStr
  | [], cur => if cur = [] then [] else [cur.reverse]
  | c :: rest, cur =>
    if jsIsSpace c then
      (if cur = [] then wsTokensAux rest [] else cur.reverse :: wsTokensAux rest [])
    else wsTokensAux rest (c :: cur)

def wsTokens (s : JsStr) : List JsStr := wsTokensAux s []

/-- JS `split(/\r?\n/)`. -/
def splitLines : JsStr → List JsStr
  | [] => [[]]
  | 13 :: 10 :: rest => [] :: splitLines rest
  | 10 :: rest => [] :: splitLines rest
  | c :: rest =>
    match splitLines rest with
    | [] => [[c]]
    | l :: ls => (c :: l) :: ls

/-- JS `parseInt(s, 10)`: skip whitespace, optional sign, maximal digit run;
`none` models `NaN`. -/
def jsParseInt (s : JsStr) : Option Int :=
  match s.dropWhile jsIsSpace with
  | 45 :: r =>
    let d := r.takeWhile jsIsDigit
    if d = [] then none else some (-(natOfDigits d : Int))
  | 43 :: r =>
    let d := r.takeWhile jsIsDigit
    if d = [] then none else some ((natOfDigits d : Int))
  | r =>
    let d := r.takeWhile jsIsDigit
    if d = [] then none else some ((natOfDigits d : Int))

/-- unsigned part of JS `parseFloat`: digits, optional point, digits; at
least one digit overall.  Exponents cannot occur at the call sites, whose
captures are drawn from the class `[\d.-]`. -/
def jsParseUnsigned (r : JsStr) : Option ℚ :=
  let d := r.takeWhile jsIsDigit
  let r2 := r.dropWhile jsIsDigit
  let f := match r2 with
    | 46 :: fr => fr.takeWhile jsIsDigit
    | _ => []
  if d = [] ∧ f = [] then none
  else some ((natOfDigits d : ℚ) + (natOfDigits f : ℚ) / ((10 : ℚ) ^ f.length))

/-- JS `parseFloat`; `none` models `NaN`. -/
def jsParseFloat (s : JsStr) : Option ℚ :=
  match s.dropWhile jsIsSpace with
  | 45 :: r => (jsParseUnsigned r).map (fun q => -q)
  | 43 :: r => jsParseUnsigned r
  | r => jsParseUnsigned r

/-- a JS number that may be `NaN` (`none`). -/
abbrev JsNum := Option ℚ

def jsSub : JsNum → JsNum → JsNum
  | some a, some b => some (a - b)
  | _, _ => none

def jsMul : JsNum → JsNum → JsNum
  | some a, some b => some (a * b)
  | _, _ => none

def jsAbs : JsNum → JsNum
  | some a => some |a|
  | none => none

/-- JS `<=`: any comparison with `NaN` is false. -/
def jsLe : JsNum → JsNum → Bool
  | some a, some b => decide (a ≤ b)
  | _, _ => false

/-- JS `<`: any comparison with `NaN` is false. -/
def jsLt : JsNum → JsNum → Bool
  | some a, some b => decide (a < b)
  | _, _ => false

/-- JS `Math.round` (half towards positive infinity); `NaN` propagates. -/
def jsRound : JsNum → JsNum
  | some a => some ((⌊a + 1/2⌋ : Int) : ℚ)
  | none => none

/-- keys of the JS `Map` built by the xref parsers: object numbers, which by
way of `parseInt` on unchecked text can be negative or `NaN` (`none`). -/
abbrev XrefKey := Option Int

/-- the JS `Map` from object number to byte offset, as an association list in
insertion order; `Map.set` overwrites in place, `NaN` keys collide. -/
abbrev XrefAssoc := List (XrefKey × Nat)

def mapSet (m : XrefAssoc) (k : XrefKey) (v : Nat) : XrefAssoc :=
  if m.any (fun p => p.1 == k) then
    m.map (fun p => if p.1 == k then (k, v) else p)
  else m ++ [(k, v)]

def mapGet (m : XrefAssoc) (k : XrefKey) : Option Nat :=
  (m.find? (fun p => p.1 == k)).map Prod.snd

/-- `bytesToStr(bytes, start, len)` of the source: char codes of the bytes in
`[start, min (start+len) bytes.length)`. -/
def bytesToStr (bytes : List Nat) (start len : Nat) : JsStr :=
  (bytes.drop start).take len

/-- `readObjectAt(bytes, offset)` with the default window of 16384 bytes. -/
def readObjectAt (bytes : List Nat) (offset : Nat) : JsStr :=
  (bytes.drop offset).take 16384

/-- char codes of `%%EOF`. -/
def eofCodes : JsStr := [37, 37, 69, 79, 70]

/-- char codes of `startxref`. -/
def startxrefCodes : JsStr := [115, 116, 97, 114, 116, 120, 114, 101, 102]

/-- char codes of `xref`. -/
def xrefCodes : JsStr := [120, 114, 101, 102]

/-- char codes of `obj`. -/
def objCodes : JsStr := [111, 98, 106]

/-- char codes of `stream`. -/
def streamCodes : JsStr := [115, 116, 114, 101, 97, 109]

/-- char codes of `>>`. -/
def dictEndCodes : JsStr := [62, 62]

/-- char codes of `%PDF-`. -/
def pdfSigCodes : JsStr := [37, 80, 68, 70, 45]

/-- char codes of `/Filter`. -/
def filterCodes : JsStr := [47, 70, 105, 108, 116, 101, 114]

/-- char codes of `/FlateDecode`. -/
def flateCodes : JsStr := [47, 70, 108, 97, 116, 101, 68, 101, 99, 111, 100, 101]

/-- char codes of `Root`. -/
def rootKey : JsStr := [82, 111, 111, 116]

/-- char codes of `Pages`. -/
def pagesKey : JsStr := [80, 97, 103, 101, 115]

/-- char codes of `Kids`. -/
def kidsKey : JsStr := [75, 105, 100, 115]

/-- char codes of `Count`. -/
def countKey : JsStr := [67, 111, 117, 110, 116]

/-- char codes of `Size`. -/
def sizeKey : JsStr := [83, 105, 122, 101]

/-- char codes of `Length`. -/
def lengthKey : JsStr := [76, 101, 110, 103, 116, 104]

/-- char codes of `W`. -/
def wKey : JsStr := [87]

/-- char codes of `Index`. -/
def indexKey : JsStr := [73, 110, 100, 101, 120]

/-- char codes of `/MediaBox`. -/
def mediaBoxCodes : JsStr := [47, 77, 101, 100, 105, 97, 66, 111, 120]

/-- regex scanning: try the pattern at each start position, leftmost match
first (every position including the end of the string, as the ECMAScript
engine does). -/
def scanFor (p : JsStr → Option α) : JsStr → Option α
  | [] => p []
  | s@(_ :: t) =>
    match p s with
    | some r => some r
    | none => scanFor p t

/-- match a literal at the current position, returning the rest. -/
def matchLit (lit s : JsStr) : Option JsStr :=
  if lit.isPrefixOf s then some (s.drop lit.length) else none

/-- first index at which `pat` occurs (JS `String.prototype.indexOf`). -/
def indexOfAux (pat : JsStr) : JsStr → Nat → Option Nat
  | [], i => if pat.isPrefixOf [] then some i else none
  | s@(_ :: t), i => if pat.isPrefixOf s then some i else indexOfAux pat t (i + 1)

def indexOfSub (s pat : JsStr) : Option Nat := indexOfAux pat s 0

/-- the tail `(\d+)\s*\d+\s*R` with ECMAScript backtracking, at the current
position.  Returns the first capture and the number of characters the whole
match consumes.  The three cases replay the engine: with no whitespace after
the first digit run the run itself has to supply both `\d+` groups, so the
capture backs off by one digit and the very next char must be `R`; with
whitespace and a second digit run the capture keeps the whole first run and
after the second run and optional spaces the next char must be `R`; with
whitespace but no second digit run the first run again supplies both groups
and the char after the whitespace must be `R`. -/
def matchRefCore (s : JsStr) : Option (JsStr × Nat) :=
  let d := s.takeWhile jsIsDigit
  let r1 := s.dropWhile jsIsDigit
  if d = [] then none
  else
    let sp := r1.takeWhile jsIsSpace
    let r2 := r1.dropWhile jsIsSpace
    if sp = [] then
      match r1 with
      | 82 :: _ => if 2 ≤ d.length then some (d.dropLast, d.length + 1) else none
      | _ => none
    else
      let e := r2.takeWhile jsIsDigit
      let r3 := r2.dropWhile jsIsDigit
      if e = [] then
        match r2 with
        | 82 :: _ => if 2 ≤ d.length then some (d.dropLast, d.length + sp.length + 1) else none
        | _ => none
      else
        let sp2 := r3.takeWhile jsIsSpace
        let r4 := r3.dropWhile jsIsSpace
        match r4 with
        | 82 :: _ => some (d, d.length + sp.length + e.length + sp2.length + 1)
        | _ => none

/-- `/KEY\s*(\d+)\s*\d+\s*R` at the current position. -/
def matchKeyRef (key s : JsStr) : Option (JsStr × Nat) :=
  match matchLit (47 :: key) s with
  | none => none
  | some r => matchRefCore (r.dropWhile jsIsSpace)

/-- `parseDictGetRef(objStr, key)`. -/
def parseDictGetRef (objStr key : JsStr) : Option Nat :=
  (scanFor (matchKeyRef key) objStr).map (fun r => natOfDigits r.1)

/-- `parseRootFromDict(dictStr)`. -/
def parseRootFromDict (dictStr : JsStr) : Option Nat :=
  parseDictGetRef dictStr rootKey

/-- `/KEY\s*([\d.-]+)` at the current position: the captured run. -/
def matchKeyNum (key s : JsStr) : Option JsStr :=
  match matchLit (47 :: key) s with
  | none => none
  | some r =>
    let r2 := r.dropWhile jsIsSpace
    let d := r2.takeWhile jsIsNumCls
    if d = [] then none else some d

/-- `parseDictGetNumber(objStr, key)`: `none` when the regex does not match,
`some none` when it matches but `parseFloat` gives `NaN`. -/
def parseDictGetNumber (objStr key : JsStr) : Option JsNum :=
  (scanFor (matchKeyNum key) objStr).map jsParseFloat

/-- the global loop `while ((r = refRe.exec(m[1])) !== null)` over
`(\d+)\s*\d+\s*R`: scan forward, and after a match continue just past it.
The fuel is the string length, which suffices since every step consumes at
least one character. -/
def gRefsAux : Nat → JsStr → List Nat
  | 0, _ => []
  | _ + 1, [] => []
  | fuel + 1, s@(_ :: t) =>
    match matchRefCore s with
    | some (m, n) => natOfDigits m :: gRefsAux fuel (s.drop n)
    | none => gRefsAux fuel t

def gRefs (s : JsStr) : List Nat := gRefsAux s.length s

/-- `/KEY\s*\[<run of cls, nonempty>\]`: the bracketed run, at the current
position. -/
def matchKeyBracket (key : JsStr) (cls : Nat → Bool) (s : JsStr) : Option JsStr :=
  match matchLit (47 :: key) s with
  | none => none
  | some r =>
    match r.dropWhile jsIsSpace with
    | 91 :: r1 =>
      let run := r1.takeWhile cls
      let r2 := r1.dropWhile cls
      if run = [] then none
      else
        match r2 with
        | 93 :: _ => some run
        | _ => none
    | _ => none

/-- `parseDictGetRefArray(objStr, key)` with its class `[^\]]+`. -/
def parseDictGetRefArray (objStr key : JsStr) : List Nat :=
  match scanFor (matchKeyBracket key (fun c => c ≠ 93)) objStr with
  | none => []
  | some inner => gRefs inner

/-- the geometry of one page. -/
structure PageBox where
  widthPt : JsNum
  heightPt : JsNum
  widthPx : JsNum
  heightPx : JsNum
deriving DecidableEq, Repr

/-- the parser's output value. -/
structure PDFStructure where
  pageCount : Nat
  pageBoxes : List PageBox
deriving DecidableEq, Repr

/-- `POINTS_TO_PX = 96 / 72`. -/
def pointsToPx : ℚ := 96 / 72

/-- the MediaBox regex
`\/MediaBox\s*\[\s*([\d.-]+)\s+([\d.-]+)\s+([\d.-]+)\s+([\d.-]+)\s*\]`
at the current position: the four captures. -/
def matchMediaBox (s : JsStr) : Option (JsStr × JsStr × JsStr × JsStr) :=
  match matchLit mediaBoxCodes s with
  | none => none
  | some r =>
    match r.dropWhile jsIsSpace with
    | 91 :: r1 =>
      let r1 := r1.dropWhile jsIsSpace
      let g1 := r1.takeWhile jsIsNumCls
      let r2 := r1.dropWhile jsIsNumCls
      if g1 = [] then none else
      let sp1 := r2.takeWhile jsIsSpace
      let r3 := r2.dropWhile jsIsSpace
      if sp1 = [] then none else
      let g2 := r3.takeWhile jsIsNumCls
      let r4 := r3.dropWhile jsIsNumCls
      if g2 = [] then none else
      let sp2 := r4.takeWhile jsIsSpace
      let r5 := r4.dropWhile jsIsSpace
      if sp2 = [] then none else
      let g3 := r5.takeWhile jsIsNumCls
      let r6 := r5.dropWhile jsIsNumCls
      if g3 = [] then none else
      let sp3 := r6.takeWhile jsIsSpace
      let r7 := r6.dropWhile jsIsSpace
      if sp3 = [] then none else
      let g4 := r7.takeWhile jsIsNumCls
      let r8 := r7.dropWhile jsIsNumCls
      if g4 = [] then none else
      match r8.dropWhile jsIsSpace with
      | 93 :: _ => some (g1, g2, g3, g4)
      | _ => none
    | _ => none

/-- `parseMediaBox(objStr)`.  JS note: a capture such as `-` parses to `NaN`,
and `NaN <= 0` is false, so the guard does not reject it. -/
def parseMediaBox (objStr : JsStr) : Option PageBox :=
  match scanFor matchMediaBox objStr with
  | none => none
  | some (g1, g2, g3, g4) =>
    let x0 := jsParseFloat g1
    let y0 := jsParseFloat g2
    let x1 := jsParseFloat g3
    let y1 := jsParseFloat g4
    let widthPt := jsAbs (jsSub x1 x0)
    let heightPt := jsAbs (jsSub y1 y0)
    if jsLe widthPt (some 0) || jsLe heightPt (some 0) then none
    else some ⟨widthPt, heightPt,
      jsRound (jsMul widthPt (some pointsToPx)),
      jsRound (jsMul heightPt (some pointsToPx))⟩

/-- `findLastEof(bytes)`: position of the last occurrence of `%%EOF`. -/
def findLastEof (bytes : List Nat) : Option Nat :=
  (List.range (bytes.length + 1 - 5)).foldl
    (fun acc i => if eofCodes.isPrefixOf (bytes.drop i) then some i else acc) none

/-- the body of the backward `startxref` search: `steps` counts the remaining
candidate end positions, the current one being `lo + steps - 1`; the loop
breaks once the position cannot hold the 9-char keyword. -/
def findStartXrefGo (bytes : List Nat) (beforeEof lo : Nat) : Nat → Option Nat
  | 0 => none
  | steps + 1 =>
    let i := lo + steps
    if i < 9 then none
    else if startxrefCodes.isPrefixOf (bytes.drop (i - 9)) then
      let tail := (bytes.drop i).take (beforeEof - i)
      let afterWs := tail.dropWhile (fun b => b = 13 || b = 10 || b = 32)
      let num := afterWs.takeWhile jsIsDigit
      if num = [] then none else some (natOfDigits num)
    else findStartXrefGo bytes beforeEof lo steps

/-- `findStartXref(bytes, beforeEof)`: search at most 2048 bytes backwards
for `startxref`, then read the following integer (whitespace here is only
CR, LF, space, as in the source).  `none` is the source's `-1`. -/
def findStartXref (bytes : List Nat) (beforeEof : Nat) : Option Nat :=
  findStartXrefGo bytes beforeEof (beforeEof - 2048) (beforeEof - (beforeEof - 2048))

/-- `isClassicXref(bytes, startOffset)`. -/
def isClassicXref (bytes : List Nat) (startOffset : Nat) : Bool :=
  let rest := (bytes.drop startOffset).dropWhile (fun b => b = 32 || b = 13 || b = 10)
  let s := rest.take 6
  xrefCodes.isPrefixOf s && (s.length = 4 || jsIsSpace (s.getD 4 0))

/-- `XREF_ENTRY = ^(\d+)\s+(\d+)\s+([nf])` applied to a trimmed line: the
parsed offset and the tag char code (`110` is `n`, `102` is `f`). -/
def xrefEntryParse (line : JsStr) : Option (Nat × Nat) :=
  let d1 := line.takeWhile jsIsDigit
  let r1 := line.dropWhile jsIsDigit
  if d1 = [] then none else
  let s1 := r1.takeWhile jsIsSpace
  let r2 := r1.dropWhile jsIsSpace
  if s1 = [] then none else
  let d2 := r2.takeWhile jsIsDigit
  let r3 := r2.dropWhile jsIsDigit
  if d2 = [] then none else
  let s2 := r3.takeWhile jsIsSpace
  let r4 := r3.dropWhile jsIsSpace
  if s2 = [] then none else
  match r4 with
  | c :: _ => if c = 110 || c = 102 then some (natOfDigits d1, c) else none
  | [] => none

/-- one subsection of the classic xref table: insert the `n`-tagged entries
of the `cnt` lines after the header, keyed by `objStart` plus the local
index, in line order. -/
def tableInsert (objStart : Int) (entryLines : List JsStr) (m : XrefAssoc) : XrefAssoc :=
  entryLines.enum.foldl (fun acc kl =>
    match xrefEntryParse (trim kl.2) with
    | some (off, tag) => if tag = 110 then mapSet acc (some (objStart + kl.1)) off else acc
    | none => acc) m

/-- the subsection loop of `parseXrefTable`.  The fuel is the number of
lines, which suffices since every iteration consumes at least one line. -/
def tableGo : Nat → List JsStr → XrefAssoc → XrefAssoc
  | 0, _, m => m
  | _ + 1, [], m => m
  | fuel + 1, l :: rest, m =>
    match wsTokens (trim l) with
    | p0 :: p1 :: _ =>
      (match jsParseInt p0, jsParseInt p1 with
       | some objStart, some count =>
         if 0 ≤ count then
           tableGo fuel (rest.drop count.toNat) (tableInsert objStart (rest.take count.toNat) m)
         else tableGo fuel rest m
       | _, _ => tableGo fuel rest m)
    | _ => tableGo fuel rest m

/-- `parseXrefTable(bytes, startOffset)`: a 4096-byte window, split into
lines, with a leading `xref` keyword line skipped. -/
def parseXrefTable (bytes : List Nat) (startOffset : Nat) : XrefAssoc :=
  let chunk := (bytes.drop startOffset).take 4096
  let lines := splitLines chunk
  let lines := match lines with
    | l :: rest => if trim l = xrefCodes then rest else l :: rest
    | [] => []
  tableGo lines.length lines []

/-- `findTrailerBeforeXref(bytes, xrefOffset)`: the window from 2048 bytes
before the xref offset to 256 bytes past it. -/
def findTrailerBeforeXref (bytes : List Nat) (xrefOffset : Nat) : JsStr :=
  let start := xrefOffset - 2048
  bytesToStr bytes start (xrefOffset - start + 256)

/-- the anchored object header test `^(\d+)\s+\d+\s+obj`. -/
def objHeaderTest (s : JsStr) : Bool :=
  let d1 := s.takeWhile jsIsDigit
  let r1 := s.dropWhile jsIsDigit
  let s1 := r1.takeWhile jsIsSpace
  let r2 := r1.dropWhile jsIsSpace
  let d2 := r2.takeWhile jsIsDigit
  let r3 := r2.dropWhile jsIsDigit
  let s2 := r3.takeWhile jsIsSpace
  let r4 := r3.dropWhile jsIsSpace
  !d1.isEmpty && !s1.isEmpty && !d2.isEmpty && !s2.isEmpty && objCodes.isPrefixOf r4

/-- `readIntBE(data, offset, numBytes)`: big-endian accumulation over JS
32-bit integer operations, so each step truncates modulo `2^32`, and bytes
past the end of `data` stop the loop (equivalently, contribute nothing). -/
def readIntBE (data : JsStr) (offset numBytes : Nat) : Nat :=
  (List.range numBytes).foldl
    (fun n i =>
      if offset + i < data.length then (n * 256 + (data.getD (offset + i) 0) % 256) % 4294967296
      else n) 0

/-- `flateDecode(raw)` with the platform inflate injected; inputs shorter
than 2 bytes are passed through without touching the inflater, and `none`
models the inflater throwing. -/
def flateDecode (inflate : JsStr → Option JsStr) (raw : JsStr) : Option JsStr :=
  if raw.length < 2 then some raw else inflate raw

/-- the `/Filter\s*\/FlateDecode` test. -/
def matchFlate (s : JsStr) : Option Unit :=
  match matchLit filterCodes s with
  | none => none
  | some r => if flateCodes.isPrefixOf (r.dropWhile jsIsSpace) then some () else none

def flateTest (dictStr : JsStr) : Bool := (scanFor matchFlate dictStr).isSome

/-- the `/W [w0 w1 w2]` extraction: the bracketed run of digits and spaces is
split into tokens (all digit runs), of which at least three are required.
Extra tokens are ignored, exactly as `wArr[0..2]` in the source. -/
def wTokens (dictStr : JsStr) : Option (Nat × Nat × Nat) :=
  match scanFor (matchKeyBracket wKey (fun c => jsIsDigit c || jsIsSpace c)) dictStr with
  | none => none
  | some run =>
    match wsTokens (trim run) with
    | t0 :: t1 :: t2 :: _ => some (natOfDigits t0, natOfDigits t1, natOfDigits t2)
    | _ => none

/-- consecutive pairs of the `/Index` number list (an odd trailing number is
dropped); the count member is carried as a JS number. -/
def pairUp : List (Option Int) → List (Option Int × JsNum)
  | a :: b :: rest => (a, b.map (fun i => (i : ℚ))) :: pairUp rest
  | _ => []

/-- `/Index [...]` of the xref stream dict. -/
def indexPairsOf (dictStr : JsStr) : List (Option Int × JsNum) :=
  match scanFor (matchKeyBracket indexKey (fun c => c ≠ 93)) dictStr with
  | none => []
  | some run => pairUp ((wsTokens (trim run)).map jsParseInt)

/-- iterations of `for (k = 0; k < count; k++)` for a JS bound: none for
`NaN` or a nonpositive bound, else the ceiling. -/
def loopIters : JsNum → Nat
  | none => 0
  | some q => if q ≤ 0 then 0 else (⌈q⌉).toNat

/-- the record loop of one `/Index` range: fixed-width records, `type` of
width `w0` and `field1` of width `w1` big-endian; only type-1 records are
inserted; a record crossing the end of the data breaks the loop, returning
the map and the position reached. -/
def xrefRecLoop (data : JsStr) (w0 w1 entryLen : Nat) (firstObj : Option Int) :
    Nat → Nat → Nat → XrefAssoc → XrefAssoc × Nat
  | 0, _, pos, m => (m, pos)
  | iters + 1, k, pos, m =>
    if data.length < pos + entryLen then (m, pos)
    else
      let t := readIntBE data pos w0
      let v1 := readIntBE data (pos + w0) w1
      let m2 := if t = 1 then mapSet m (firstObj.map (fun f => f + (k : Int))) v1 else m
      xrefRecLoop data w0 w1 entryLen firstObj iters (k + 1) (pos + entryLen) m2

/-- the outer loop over the `/Index` ranges, threading position and map. -/
def xrefPairsLoop (data : JsStr) (w0 w1 entryLen : Nat) :
    List (Option Int × JsNum) → XrefAssoc × Nat → XrefAssoc × Nat
  | [], st => st
  | (f, c) :: rest, (m, pos) =>
    xrefPairsLoop data w0 w1 entryLen rest (xrefRecLoop data w0 w1 entryLen f (loopIters c) 0 pos m)

/-- `parseXrefStream(bytes, startOffset)`: returns the map and the dict text,
or `none` on any failure (including a thrown inflate, which the source
catches and converts to `null`). -/
def parseXrefStream (inflate : JsStr → Option JsStr) (bytes : List Nat)
    (startOffset : Nat) : Option (XrefAssoc × JsStr) :=
  let objStr := readObjectAt bytes startOffset
  if !objHeaderTest objStr then none
  else match indexOfSub objStr dictEndCodes with
  | none => none
  | some dictEnd =>
  let dictStr := objStr.take (dictEnd + 2)
  match parseDictGetNumber dictStr sizeKey with
  | none => none
  | some sizeN =>
  if jsLt sizeN (some 0) then none
  else match wTokens dictStr with
  | none => none
  | some (w0, w1, w2) =>
  let entryLen := w0 + w1 + w2
  let pairs0 := indexPairsOf dictStr
  let pairs := if pairs0 = [] then [(some 0, sizeN)] else pairs0
  match indexOfSub objStr streamCodes with
  | none => none
  | some streamMarker =>
  let ds0 := streamMarker + 6
  let ds1 := if ds0 < bytes.length - startOffset && bytes.getD (startOffset + ds0) 0 = 13
    then ds0 + 1 else ds0
  let ds2 := if ds1 < bytes.length - startOffset && bytes.getD (startOffset + ds1) 0 = 10
    then ds1 + 1 else ds1
  let streamLen : Nat := match parseDictGetNumber dictStr lengthKey with
    | some (some q) => if 0 ≤ q then (⌊q⌋).toNat else 0
    | _ => 0
  let streamBytes := (bytes.drop (startOffset + ds2)).take streamLen
  match (if flateTest dictStr then flateDecode inflate streamBytes else some streamBytes) with
  | none => none
  | some data =>
    some ((xrefPairsLoop data w0 w1 entryLen pairs ([], 0)).1, dictStr)

/-- the fallback regex `/\/Count\s*(\d+)/` at the current position. -/
def matchCount (s : JsStr) : Option JsStr :=
  match matchLit (47 :: countKey) s with
  | none => none
  | some r =>
    let d := (r.dropWhile jsIsSpace).takeWhile jsIsDigit
    if d = [] then none else some d

/-- `DEFAULT_MEDIABOX_PT` completed with the pixel values the fallback
computes from it. -/
def defaultPageBox : PageBox :=
  ⟨some 612, some 792,
   jsRound (jsMul (some 612) (some pointsToPx)),
   jsRound (jsMul (some 792) (some pointsToPx))⟩

/-- `fallbackPageCountAndBoxes(bytes)`: scan the first 512 KiB for the first
`/Count N`; accept only `0 < N ≤ 50000` (the source's `pageCount <= 0` test
is `= 0` here since the capture is a digit run). -/
def fallbackPageCountAndBoxes (bytes : List Nat) : Option PDFStructure :=
  let str := bytesToStr bytes 0 (min bytes.length 524288)
  let pageCount := match scanFor matchCount str with
    | some d => natOfDigits d
    | none => 0
  if pageCount = 0 ∨ 50000 < pageCount then none
  else some ⟨pageCount, List.replicate pageCount defaultPageBox⟩

/-- `PDF_HEADER = %PDF-(\d+)\.(\d+)` at the current position. -/
def matchPdfHeader (s : JsStr) : Option Unit :=
  match matchLit pdfSigCodes s with
  | none => none
  | some r =>
    let d := r.takeWhile jsIsDigit
    let r2 := r.dropWhile jsIsDigit
    if d = [] then none else
    match r2 with
    | 46 :: r3 => if r3.takeWhile jsIsDigit = [] then none else some ()
    | _ => none

/-- `PDF_HEADER.test(s)`: unanchored, anywhere in `s`. -/
def pdfHeaderTest (s : JsStr) : Bool := (scanFor matchPdfHeader s).isSome

/-- the loop `for (const k of kids) if (!collectPages(k)) return false`,
abstracted over the recursive call at the next depth. -/
def collectKidsWith (step : Nat → List PageBox → Option (Bool × List PageBox)) :
    List Nat → List PageBox → Option (Bool × List PageBox)
  | [], boxes => some (true, boxes)
  | k :: rest, boxes =>
    match step k boxes with
    | none => none
    | some (false, b) => some (false, b)
    | some (true, b) => collectKidsWith step rest b

/-- `collectPages(objNum)` closed over `bytes` and `xrefMap`, in state-passing
form over the growing `pageBoxes` array, with an explicit recursion-depth
fuel: the top-level `none` means the recursion exceeds the given depth (the
source recursion has no bound at all). -/
def collectPages (bytes : List Nat) (xrefMap : XrefAssoc) (fuel : Nat) :
    Nat → List PageBox → Option (Bool × List PageBox) :=
  Nat.rec (motive := fun _ => Nat → List PageBox → Option (Bool × List PageBox))
    (fun _ _ => none)
    (fun _ deeper objNum boxes =>
      match mapGet xrefMap (some (objNum : Int)) with
      | none => some (false, boxes)
      | some off =>
        let objStr := readObjectAt bytes off
        let count := parseDictGetNumber objStr countKey
        let kids := parseDictGetRefArray objStr kidsKey
        if kids ≠ [] then collectKidsWith deeper kids boxes
        else if count = some (some 0) then some (true, boxes)
        else
          match parseMediaBox objStr with
          | some box => some (true, boxes ++ [box])
          | none => some (true, boxes))
    fuel

/-- the part of `parsePdfStructure` before the page-tree walk, following the
source line by line: every early `return null` is `none`, and on success the
xref map and the `/Pages` object number are handed to the walk. -/
def parsePrelude (inflate : JsStr → Option JsStr) (bytes : List Nat) :
    Option (XrefAssoc × Nat) :=
  if bytes.length < 100 then none
  else if !pdfHeaderTest (bytesToStr bytes 0 20) then none
  else match findLastEof bytes with
  | none => none
  | some eofPos =>
  match findStartXref bytes eofPos with
  | none => none
  | some xrefOffset =>
  let mr : Option (XrefAssoc × Option Nat) :=
    if isClassicXref bytes xrefOffset then
      let m := parseXrefTable bytes xrefOffset
      if m.length = 0 then none
      else some (m, parseRootFromDict (findTrailerBeforeXref bytes xrefOffset))
    else
      match parseXrefStream inflate bytes xrefOffset with
      | none => none
      | some (m, dictStr) =>
        match parseRootFromDict dictStr with
        | some r => some (m, some r)
        | none => some (m, parseRootFromDict (findTrailerBeforeXref bytes xrefOffset))
  match mr with
  | none => none
  | some (xrefMap, rootOpt) =>
  match rootOpt with
  | none => none
  | some rootObjNum =>
  match mapGet xrefMap (some (rootObjNum : Int)) with
  | none => none
  | some rootOffset =>
  match parseDictGetRef (readObjectAt bytes rootOffset) pagesKey with
  | none => none
  | some pagesObjNum => some (xrefMap, pagesObjNum)

/-- `parsePdfStructure(buffer)`: `some none` is the source's `null`,
`some (some s)` a successful structure, and the outer `none` means the
page-tree recursion exceeds the `fuel` depth (for every fuel: divergence). -/
def parsePdfStructure (inflate : JsStr → Option JsStr) (fuel : Nat)
    (buffer : List Nat) : Option (Option PDFStructure) :=
  match parsePrelude inflate buffer with
  | none => some none
  | some (xrefMap, pagesObjNum) =>
    match collectPages buffer xrefMap fuel pagesObjNum [] with
    | none => none
    | some (false, _) => some (fallbackPageCountAndBoxes buffer)
    | some (true, pageBoxes) =>
      if pageBoxes.length = 0 then some (fallbackPageCountAndBoxes buffer)
      else some (some ⟨pageBoxes.length, pageBoxes⟩)


/-- declarative description of one classic xref subsection, in the words of
the claim: among the `count` entry lines following a subsection header, the
lines matching the entry pattern with tag `n` (char 110) contribute the pair
`(firstObjNum + localIndex, parsed offset)`; `f`-tagged (char 102) and
unparsable lines contribute nothing. -/
def subsectionEntries (objStart : Int) (entryLines : List JsStr) : List (XrefKey × Nat) :=
  entryLines.enum.filterMap (fun kl =>
    match xrefEntryParse (trim kl.2) with
    | some (off, tag) => if tag = 110 then some ((some (objStart + (kl.1 : Int)) : XrefKey), off) else none
    | none => none)

/-- declarative list of all in-use entries of a classic xref table text, in
subsection order and line order within each subsection. -/
def tableEntriesOfLines : Nat → List JsStr → List (XrefKey × Nat)
  | 0, _ => []
  | _ + 1, [] => []
  | fuel + 1, l :: rest =>
    match wsTokens (trim l) with
    | p0 :: p1 :: _ =>
      (match jsParseInt p0, jsParseInt p1 with
       | some objStart, some count =>
         if 0 ≤ count then
           subsectionEntries objStart (rest.take count.toNat) ++
             tableEntriesOfLines fuel (rest.drop count.toNat)
         else tableEntriesOfLines fuel rest
       | _, _ => tableEntriesOfLines fuel rest)
    | _ => tableEntriesOfLines fuel rest

/-- the in-use entries of the classic xref table at `startOffset`, read off
the same line window as `parseXrefTable`. -/
def tableInUseEntries (bytes : List Nat) (startOffset : Nat) : List (XrefKey × Nat) :=
  let chunk := (bytes.drop startOffset).take 4096
  let lines := splitLines chunk
  let lines := match lines with
    | l :: rest => if trim l = xrefCodes then rest else l :: rest
    | [] => []
  tableEntriesOfLines lines.length lines

/-- a JS `Map` built by inserting a list of entries in order. -/
def mapOfList (l : List (XrefKey × Nat)) : XrefAssoc :=
  l.foldl (fun m p => mapSet m p.1 p.2) []

/-- the position reached by the record loop of one xref-stream index range. -/
def streamPosAfter (data : JsStr) (entryLen : Nat) : Nat → Nat → Nat
  | 0, pos => pos
  | iters + 1, pos =>
    if data.length < pos + entryLen then pos
    else streamPosAfter data entryLen iters (pos + entryLen)

/-- declarative list of the in-use entries of one xref-stream index range, in
the words of the claim: walking fixed-width records until one would cross the
end of the data, exactly the records whose type field (big-endian integer of
width `w0`) equals 1 contribute the pair of the object number `firstObj + k`
and field 2 read as a big-endian integer of width `w1`; type-0 and type-2
records contribute nothing. -/
def streamRecords (data : JsStr) (w0 w1 entryLen : Nat) (firstObj : Option Int) :
    Nat → Nat → Nat → List (XrefKey × Nat)
  | 0, _, _ => []
  | iters + 1, k, pos =>
    if data.length < pos + entryLen then []
    else
      (if readIntBE data pos w0 = 1
       then [((firstObj.map (fun f => f + (k : Int)) : XrefKey), readIntBE data (pos + w0) w1)]
       else [])
      ++ streamRecords data w0 w1 entryLen firstObj iters (k + 1) (pos + entryLen)

/-- declarative list of the in-use entries of all xref-stream index ranges,
in range order, record order within each range. -/
def streamPairsRecords (data : JsStr) (w0 w1 entryLen : Nat) :
    List (Option Int × JsNum) → Nat → List (XrefKey × Nat)
  | [], _ => []
  | (f, c) :: rest, pos =>
    streamRecords data w0 w1 entryLen f (loopIters c) 0 pos ++
      streamPairsRecords data w0 w1 entryLen rest
        (streamPosAfter data entryLen (loopIters c) pos)

/-- divergence of the parser: no recursion depth suffices, modelling the
unbounded recursion of the source never returning. -/
def ParseDiverges (inflate : JsStr → Option JsStr) (buffer : List Nat) : Prop :=
  ∀ fuel, parsePdfStructure inflate fuel buffer = none

/-- an inflate capability that always throws; classic-xref buffers never
invoke it. -/
def noInflate : JsStr → Option JsStr := fun _ => none

def bufBase : List Nat := [37, 80, 68, 70, 45, 49, 46, 52, 10, 49, 32, 48, 32, 111, 98, 106, 10, 60, 60, 32, 47, 84, 121, 112, 101, 32, 47, 67, 97, 116, 97, 108, 111, 103, 32, 47, 80, 97, 103, 101, 115, 32, 50, 32, 48, 32, 82, 32, 62, 62, 10, 101, 110, 100, 111, 98, 106, 10, 50, 32, 48, 32, 111, 98, 106, 10, 60, 60, 32, 47, 84, 121, 112, 101, 32, 47, 80, 97, 103, 101, 115, 32, 47, 75, 105, 100, 115, 32, 91, 51, 32, 48, 32, 82, 93, 32, 47, 67, 111, 117, 110, 116, 32, 49, 32, 62, 62, 10, 101, 110, 100, 111, 98, 106, 10, 51, 32, 48, 32, 111, 98, 106, 10, 60, 60, 32, 47, 84, 121, 112, 101, 32, 47, 80, 97, 103, 101, 32, 47, 77, 101, 100, 105, 97, 66, 111, 120, 32, 91, 48, 32, 48, 32, 54, 49, 50, 32, 55, 57, 50, 93, 32, 62, 62, 10, 101, 110, 100, 111, 98, 106, 10, 120, 114, 101, 102, 10, 48, 32, 52, 10, 48, 48, 48, 48, 48, 48, 48, 48, 48, 48, 32, 54, 53, 53, 51, 53, 32, 102, 32, 10, 48, 48, 48, 48, 48, 48, 48, 48, 48, 57, 32, 48, 48, 48, 48, 48, 32, 110, 32, 10, 48, 48, 48, 48, 48, 48, 48, 48, 53, 56, 32, 48, 48, 48, 48, 48, 32, 110, 32, 10, 48, 48, 48, 48, 48, 48, 48, 49, 49, 53, 32, 48, 48, 48, 48, 48, 32, 110, 32, 10, 116, 114, 97, 105, 108, 101, 114, 10, 60, 60, 32, 47, 83, 105, 122, 101, 32, 52, 32, 47, 82, 111, 111, 116, 32, 49, 32, 48, 32, 82, 32, 62, 62, 10, 115, 116, 97, 114, 116, 120, 114, 101, 102, 10, 49, 55, 50, 10, 37, 37, 69, 79, 70]

def bufNoPages : List Nat := [37, 80, 68, 70, 45, 49, 46, 52, 10, 49, 32, 48, 32, 111, 98, 106, 10, 60, 60, 32, 47, 84, 121, 112, 101, 32, 47, 67, 97, 116, 97, 108, 111, 103, 32, 62, 62, 10, 101, 110, 100, 111, 98, 106, 10, 50, 32, 48, 32, 111, 98, 106, 10, 60, 60, 32, 47, 84, 121, 112, 101, 32, 47, 78, 111, 100, 101, 32, 47, 67, 111, 117, 110, 116, 32, 53, 32, 62, 62, 10, 101, 110, 100, 111, 98, 106, 10, 120, 114, 101, 102, 10, 48, 32, 51, 10, 48, 48, 48, 48, 48, 48, 48, 48, 48, 48, 32, 54, 53, 53, 51, 53, 32, 102, 32, 10, 48, 48, 48, 48, 48, 48, 48, 48, 48, 57, 32, 48, 48, 48, 48, 48, 32, 110, 32, 10, 48, 48, 48, 48, 48, 48, 48, 48, 52, 53, 32, 48, 48, 48, 48, 48, 32, 110, 32, 10, 116, 114, 97, 105, 108, 101, 114, 10, 60, 60, 32, 47, 83, 105, 122, 101, 32, 51, 32, 47, 82, 111, 111, 116, 32, 49, 32, 48, 32, 82, 32, 62, 62, 10, 115, 116, 97, 114, 116, 120, 114, 101, 102, 10, 56, 55, 10, 37, 37, 69, 79, 70]

def bufKidMissing : List Nat := [37, 80, 68, 70, 45, 49, 46, 52, 10, 49, 32, 48, 32, 111, 98, 106, 10, 60, 60, 32, 47, 84, 121, 112, 101, 32, 47, 67, 97, 116, 97, 108, 111, 103, 32, 47, 80, 97, 103, 101, 115, 32, 50, 32, 48, 32, 82, 32, 62, 62, 10, 101, 110, 100, 111, 98, 106, 10, 50, 32, 48, 32, 111, 98, 106, 10, 60, 60, 32, 47, 84, 121, 112, 101, 32, 47, 80, 97, 103, 101, 115, 32, 47, 75, 105, 100, 115, 32, 91, 55, 32, 48, 32, 82, 93, 32, 47, 67, 111, 117, 110, 116, 32, 50, 32, 62, 62, 10, 101, 110, 100, 111, 98, 106, 10, 120, 114, 101, 102, 10, 48, 32, 51, 10, 48, 48, 48, 48, 48, 48, 48, 48, 48, 48, 32, 54, 53, 53, 51, 53, 32, 102, 32, 10, 48, 48, 48, 48, 48, 48, 48, 48, 48, 57, 32, 48, 48, 48, 48, 48, 32, 110, 32, 10, 48, 48, 48, 48, 48, 48, 48, 48, 53, 56, 32, 48, 48, 48, 48, 48, 32, 110, 32, 10, 116, 114, 97, 105, 108, 101, 114, 10, 60, 60, 32, 47, 83, 105, 122, 101, 32, 51, 32, 47, 82, 111, 111, 116, 32, 49, 32, 48, 32, 82, 32, 62, 62, 10, 115, 116, 97, 114, 116, 120, 114, 101, 102, 10, 49, 49, 53, 10, 37, 37, 69, 79, 70]

def bufStreamNoW : List Nat := [37, 80, 68, 70, 45, 49, 46, 53, 10, 37, 32, 115, 116, 114, 97, 121, 32, 99, 111, 109, 109, 101, 110, 116, 32, 47, 67, 111, 117, 110, 116, 32, 55, 32, 102, 111, 114, 32, 116, 104, 101, 32, 102, 97, 108, 108, 98, 97, 99, 107, 32, 115, 99, 97, 110, 110, 101, 114, 32, 116, 111, 32, 102, 105, 110, 100, 10, 52, 32, 48, 32, 111, 98, 106, 10, 60, 60, 32, 47, 84, 121, 112, 101, 32, 47, 88, 82, 101, 102, 32, 47, 83, 105, 122, 101, 32, 51, 32, 62, 62, 10, 115, 116, 114, 101, 97, 109, 10, 65, 65, 65, 65, 10, 101, 110, 100, 115, 116, 114, 101, 97, 109, 10, 101, 110, 100, 111, 98, 106, 10, 115, 116, 97, 114, 116, 120, 114, 101, 102, 10, 54, 55, 10, 37, 37, 69, 79, 70]

def bufNanBox : List Nat := [37, 80, 68, 70, 45, 49, 46, 52, 10, 49, 32, 48, 32, 111, 98, 106, 10, 60, 60, 32, 47, 84, 121, 112, 101, 32, 47, 67, 97, 116, 97, 108, 111, 103, 32, 47, 80, 97, 103, 101, 115, 32, 50, 32, 48, 32, 82, 32, 62, 62, 10, 101, 110, 100, 111, 98, 106, 10, 50, 32, 48, 32, 111, 98, 106, 10, 60, 60, 32, 47, 84, 121, 112, 101, 32, 47, 80, 97, 103, 101, 115, 32, 47, 75, 105, 100, 115, 32, 91, 51, 32, 48, 32, 82, 93, 32, 47, 67, 111, 117, 110, 116, 32, 49, 32, 62, 62, 10, 101, 110, 100, 111, 98, 106, 10, 51, 32, 48, 32, 111, 98, 106, 10, 60, 60, 32, 47, 84, 121, 112, 101, 32, 47, 80, 97, 103, 101, 32, 47, 77, 101, 100, 105, 97, 66, 111, 120, 32, 91, 32, 45, 32, 48, 32, 48, 32, 55, 57, 50, 32, 93, 32, 62, 62, 10, 101, 110, 100, 111, 98, 106, 10, 120, 114, 101, 102, 10, 48, 32, 52, 10, 48, 48, 48, 48, 48, 48, 48, 48, 48, 48, 32, 54, 53, 53, 51, 53, 32, 102, 32, 10, 48, 48, 48, 48, 48, 48, 48, 48, 48, 57, 32, 48, 48, 48, 48, 48, 32, 110, 32, 10, 48, 48, 48, 48, 48, 48, 48, 48, 53, 56, 32, 48, 48, 48, 48, 48, 32, 110, 32, 10, 48, 48, 48, 48, 48, 48, 48, 49, 49, 53, 32, 48, 48, 48, 48, 48, 32, 110, 32, 10, 116, 114, 97, 105, 108, 101, 114, 10, 60, 60, 32, 47, 83, 105, 122, 101, 32, 52, 32, 47, 82, 111, 111, 116, 32, 49, 32, 48, 32, 82, 32, 62, 62, 10, 115, 116, 97, 114, 116, 120, 114, 101, 102, 10, 49, 55, 50, 10, 37, 37, 69, 79, 70]

def buf3kids : List Nat := [37, 80, 68, 70, 45, 49, 46, 52, 10, 49, 32, 48, 32, 111, 98, 106, 10, 60, 60, 32, 47, 84, 121, 112, 101, 32, 47, 67, 97, 116, 97, 108, 111, 103, 32, 47, 80, 97, 103, 101, 115, 32, 50, 32, 48, 32, 82, 32, 62, 62, 10, 101, 110, 100, 111, 98, 106, 10, 50, 32, 48, 32, 111, 98, 106, 10, 60, 60, 32, 47, 84, 121, 112, 101, 32, 47, 80, 97, 103, 101, 115, 32, 47, 75, 105, 100, 115, 32, 91, 51, 32, 48, 32, 82, 32, 52, 32, 48, 32, 82, 32, 53, 32, 48, 32, 82, 93, 32, 47, 67, 111, 117, 110, 116, 32, 51, 32, 62, 62, 10, 101, 110, 100, 111, 98, 106, 10, 51, 32, 48, 32, 111, 98, 106, 10, 60, 60, 32, 47, 84, 121, 112, 101, 32, 47, 80, 97, 103, 101, 32, 47, 77, 101, 100, 105, 97, 66, 111, 120, 32, 91, 48, 32, 48, 32, 54, 49, 50, 32, 55, 57, 50, 93, 32, 62, 62, 10, 101, 110, 100, 111, 98, 106, 10, 52, 32, 48, 32, 111, 98, 106, 10, 60, 60, 32, 47, 84, 121, 112, 101, 32, 47, 80, 97, 103, 101, 32, 47, 77, 101, 100, 105, 97, 66, 111, 120, 32, 91, 48, 32, 48, 32, 53, 57, 53, 32, 56, 52, 50, 93, 32, 62, 62, 10, 101, 110, 100, 111, 98, 106, 10, 53, 32, 48, 32, 111, 98, 106, 10, 60, 60, 32, 47, 84, 121, 112, 101, 32, 47, 80, 97, 103, 101, 32, 47, 77, 101, 100, 105, 97, 66, 111, 120, 32, 91, 48, 32, 48, 32, 53, 48, 48, 32, 53, 48, 48, 93, 32, 62, 62, 10, 101, 110, 100, 111, 98, 106, 10, 120, 114, 101, 102, 10, 48, 32, 54, 10, 48, 48, 48, 48, 48, 48, 48, 48, 48, 48, 32, 54, 53, 53, 51, 53, 32, 102, 32, 10, 48, 48, 48, 48, 48, 48, 48, 48, 48, 57, 32, 48, 48, 48, 48, 48, 32, 110, 32, 10, 48, 48, 48, 48, 48, 48, 48, 48, 53, 56, 32, 48, 48, 48, 48, 48, 32, 110, 32, 10, 48, 48, 48, 48, 48, 48, 48, 49, 50, 55, 32, 48, 48, 48, 48, 48, 32, 110, 32, 10, 48, 48, 48, 48, 48, 48, 48, 49, 56, 52, 32, 48, 48, 48, 48, 48, 32, 110, 32, 10, 48, 48, 48, 48, 48, 48, 48, 50, 52, 49, 32, 48, 48, 48, 48, 48, 32, 110, 32, 10, 116, 114, 97, 105, 108, 101, 114, 10, 60, 60, 32, 47, 83, 105, 122, 101, 32, 54, 32, 47, 82, 111, 111, 116, 32, 49, 32, 48, 32, 82, 32, 62, 62, 10, 115, 116, 97, 114, 116, 120, 114, 101, 102, 10, 50, 57, 56, 10, 37, 37, 69, 79, 70]

def bufShifted : List Nat := [65, 90, 35, 32, 37, 80, 68, 70, 45, 49, 46, 52, 10, 49, 32, 48, 32, 111, 98, 106, 10, 60, 60, 32, 47, 84, 121, 112, 101, 32, 47, 67, 97, 116, 97, 108, 111, 103, 32, 47, 80, 97, 103, 101, 115, 32, 50, 32, 48, 32, 82, 32, 62, 62, 10, 101, 110, 100, 111, 98, 106, 10, 50, 32, 48, 32, 111, 98, 106, 10, 60, 60, 32, 47, 84, 121, 112, 101, 32, 47, 80, 97, 103, 101, 115, 32, 47, 75, 105, 100, 115, 32, 91, 51, 32, 48, 32, 82, 93, 32, 47, 67, 111, 117, 110, 116, 32, 49, 32, 62, 62, 10, 101, 110, 100, 111, 98, 106, 10, 51, 32, 48, 32, 111, 98, 106, 10, 60, 60, 32, 47, 84, 121, 112, 101, 32, 47, 80, 97, 103, 101, 32, 47, 77, 101, 100, 105, 97, 66, 111, 120, 32, 91, 48, 32, 48, 32, 54, 49, 50, 32, 55, 57, 50, 93, 32, 62, 62, 10, 101, 110, 100, 111, 98, 106, 10, 120, 114, 101, 102, 10, 48, 32, 52, 10, 48, 48, 48, 48, 48, 48, 48, 48, 48, 48, 32, 54, 53, 53, 51, 53, 32, 102, 32, 10, 48, 48, 48, 48, 48, 48, 48, 48, 49, 51, 32, 48, 48, 48, 48, 48, 32, 110, 32, 10, 48, 48, 48, 48, 48, 48, 48, 48, 54, 50, 32, 48, 48, 48, 48, 48, 32, 110, 32, 10, 48, 48, 48, 48, 48, 48, 48, 49, 49, 57, 32, 48, 48, 48, 48, 48, 32, 110, 32, 10, 116, 114, 97, 105, 108, 101, 114, 10, 60, 60, 32, 47, 83, 105, 122, 101, 32, 52, 32, 47, 82, 111, 111, 116, 32, 49, 32, 48, 32, 82, 32, 62, 62, 10, 115, 116, 97, 114, 116, 120, 114, 101, 102, 10, 49, 55, 54, 10, 37, 37, 69, 79, 70]

def bufNoSig : List Nat := [65, 65, 65, 65, 65, 65, 65, 65, 65, 65, 65, 65, 65, 65, 65, 65, 65, 65, 65, 65, 65, 65, 65, 65, 65, 65, 65, 65, 65, 65, 65, 65, 65, 65, 65, 65, 65, 65, 65, 65, 65, 65, 65, 65, 65, 65, 65, 65, 65, 65, 65, 65, 65, 65, 65, 65, 65, 65, 65, 65, 65, 65, 65, 65, 65, 65, 65, 65, 65, 65, 65, 65, 65, 65, 65, 65, 65, 65, 65, 65, 65, 65, 65, 65, 65, 65, 65, 65, 65, 65, 65, 65, 65, 65, 65, 65, 65, 65, 65, 65, 65, 65, 65, 65, 65, 65, 65, 65, 65, 65, 65, 65, 65, 65, 65, 65, 65, 65, 65, 65]

def bufCycle : List Nat := [37, 80, 68, 70, 45, 49, 46, 52, 10, 49, 32, 48, 32, 111, 98, 106, 10, 60, 60, 32, 47, 84, 121, 112, 101, 32, 47, 67, 97, 116, 97, 108, 111, 103, 32, 47, 80, 97, 103, 101, 115, 32, 50, 32, 48, 32, 82, 32, 62, 62, 10, 101, 110, 100, 111, 98, 106, 10, 50, 32, 48, 32, 111, 98, 106, 10, 60, 60, 32, 47, 84, 121, 112, 101, 32, 47, 80, 97, 103, 101, 115, 32, 47, 75, 105, 100, 115, 32, 91, 50, 32, 48, 32, 82, 93, 32, 47, 67, 111, 117, 110, 116, 32, 49, 32, 62, 62, 10, 101, 110, 100, 111, 98, 106, 10, 120, 114, 101, 102, 10, 48, 32, 51, 10, 48, 48, 48, 48, 48, 48, 48, 48, 48, 48, 32, 54, 53, 53, 51, 53, 32, 102, 32, 10, 48, 48, 48, 48, 48, 48, 48, 48, 48, 57, 32, 48, 48, 48, 48, 48, 32, 110, 32, 10, 48, 48, 48, 48, 48, 48, 48, 48, 53, 56, 32, 48, 48, 48, 48, 48, 32, 110, 32, 10, 116, 114, 97, 105, 108, 101, 114, 10, 60, 60, 32, 47, 83, 105, 122, 101, 32, 51, 32, 47, 82, 111, 111, 116, 32, 49, 32, 48, 32, 82, 32, 62, 62, 10, 115, 116, 97, 114, 116, 120, 114, 101, 102, 10, 49, 49, 53, 10, 37, 37, 69, 79, 70]

def bufStream : List Nat := [37, 80, 68, 70, 45, 49, 46, 53, 10, 49, 32, 48, 32, 111, 98, 106, 10, 60, 60, 32, 47, 84, 121, 112, 101, 32, 47, 67, 97, 116, 97, 108, 111, 103, 32, 47, 80, 97, 103, 101, 115, 32, 50, 32, 48, 32, 82, 32, 62, 62, 10, 101, 110, 100, 111, 98, 106, 10, 50, 32, 48, 32, 111, 98, 106, 10, 60, 60, 32, 47, 84, 121, 112, 101, 32, 47, 80, 97, 103, 101, 115, 32, 47, 75, 105, 100, 115, 32, 91, 51, 32, 48, 32, 82, 93, 32, 47, 67, 111, 117, 110, 116, 32, 49, 32, 62, 62, 10, 101, 110, 100, 111, 98, 106, 10, 51, 32, 48, 32, 111, 98, 106, 10, 60, 60, 32, 47, 84, 121, 112, 101, 32, 47, 80, 97, 103, 101, 32, 47, 77, 101, 100, 105, 97, 66, 111, 120, 32, 91, 48, 32, 48, 32, 54, 49, 50, 32, 55, 57, 50, 93, 32, 62, 62, 10, 101, 110, 100, 111, 98, 106, 10, 52, 32, 48, 32, 111, 98, 106, 10, 60, 60, 32, 47, 84, 121, 112, 101, 32, 47, 88, 82, 101, 102, 32, 47, 83, 105, 122, 101, 32, 53, 32, 47, 73, 110, 100, 101, 120, 32, 91, 49, 32, 51, 93, 32, 47, 87, 32, 91, 49, 32, 50, 32, 49, 93, 32, 47, 82, 111, 111, 116, 32, 49, 32, 48, 32, 82, 32, 47, 76, 101, 110, 103, 116, 104, 32, 49, 56, 32, 47, 70, 105, 108, 116, 101, 114, 32, 47, 70, 108, 97, 116, 101, 68, 101, 99, 111, 100, 101, 32, 62, 62, 10, 115, 116, 114, 101, 97, 109, 10, 120, 156, 99, 100, 224, 100, 96, 100, 176, 2, 226, 98, 6, 0, 2, 192, 0, 186, 10, 101, 110, 100, 115, 116, 114, 101, 97, 109, 10, 101, 110, 100, 111, 98, 106, 10, 115, 116, 97, 114, 116, 120, 114, 101, 102, 10, 49, 55, 50, 10, 37, 37, 69, 79, 70]

/-- genuine zlib (RFC 1950) compression of `c8data`, produced by a standard
deflate implementation; used as the `/FlateDecode` stream payload. -/
def c8raw : List Nat := [120, 156, 99, 100, 224, 100, 96, 100, 176, 2, 226, 98, 6, 0, 2, 192, 0, 186]

/-- the twelve decompressed xref-stream record bytes of `bufStream`: three
type-1 records with 2-byte big-endian offsets 9, 58, 115. -/
def c8data : List Nat := [1, 0, 9, 0, 1, 0, 58, 0, 1, 0, 115, 0]

/-- the inflate capability restricted to the one stream of `bufStream`,
agreeing there with any standard zlib inflater (see `c8raw`, `c8data`). -/
def inflate8 : JsStr → Option JsStr := fun raw => if raw = c8raw then some c8data else none

/-- a classic xref table text whose single subsection header announces five
entries but whose window is truncated after two lines. -/
def bufTruncTable : List Nat := [120, 114, 101, 102, 10, 48, 32, 53, 10, 48, 48, 48, 48, 48, 48, 48, 48, 49, 49, 32, 48, 48, 48, 48, 48, 32, 110, 32, 10, 48, 48, 48, 48, 48, 48, 48, 48, 50, 50, 32, 48, 48, 48, 48, 48, 32, 110]


theorem collectPages_zero (bytes : List Nat) (xrefMap : XrefAssoc) (objNum : Nat)
    (boxes : List PageBox) : collectPages bytes xrefMap 0 objNum boxes = none := rfl

theorem collectPages_succ (bytes : List Nat) (xrefMap : XrefAssoc) (fuel objNum : Nat)
    (boxes : List PageBox) :
    collectPages bytes xrefMap (fuel + 1) objNum boxes =
      match mapGet xrefMap (some (objNum : Int)) with
      | none => some (false, boxes)
      | some off =>
        let objStr := readObjectAt bytes off
        let count := parseDictGetNumber objStr countKey
        let kids := parseDictGetRefArray objStr kidsKey
        if kids ≠ [] then collectKidsWith (collectPages bytes xrefMap fuel) kids boxes
        else if count = some (some 0) then some (true, boxes)
        else
          match parseMediaBox objStr with
          | some box => some (true, boxes ++ [box])
          | none => some (true, boxes) := rfl

theorem collectKidsWith_extends
    (step : Nat → List PageBox → Option (Bool × List PageBox))
    (hstep : ∀ k b r, step k b = some r → ∃ l, r.2 = b ++ l) :
    ∀ kids boxes r, collectKidsWith step kids boxes = some r → ∃ l, r.2 = boxes ++ l := by
  intro kids
  induction kids with
  | nil =>
    intro boxes r h
    simp only [collectKidsWith] at h
    exact ⟨[], by simp [← Option.some.inj h]⟩
  | cons k t ih =>
    intro boxes r h
    simp only [collectKidsWith] at h
    cases hs : step k boxes with
    | none => rw [hs] at h; cases h
    | some p =>
      rw [hs] at h
      obtain ⟨ok, b⟩ := p
      obtain ⟨l1, hl1⟩ := hstep k boxes (ok, b) hs
      cases ok with
      | false =>
        simp only at h
        refine ⟨l1, ?_⟩
        rw [← Option.some.inj h]
        exact hl1
      | true =>
        simp only at h
        obtain ⟨l2, hl2⟩ := ih b r h
        exact ⟨l1 ++ l2, by simp at hl1; simp [hl2, hl1]⟩

theorem collectPages_extends : ∀ (fuel : Nat) (bytes : List Nat) (xrefMap : XrefAssoc)
    (objNum : Nat) (boxes : List PageBox) (r : Bool × List PageBox),
    collectPages bytes xrefMap fuel objNum boxes = some r → ∃ l, r.2 = boxes ++ l := by
  intro fuel
  induction fuel with
  | zero =>
    intro bytes m objNum boxes r h
    rw [collectPages_zero] at h
    cases h
  | succ n ih =>
    intro bytes m objNum boxes r h
    rw [collectPages_succ] at h
    cases hg : mapGet m (some (objNum : Int)) with
    | none =>
      rw [hg] at h
      exact ⟨[], by simp [← Option.some.inj h]⟩
    | some off =>
      rw [hg] at h
      simp only at h
      by_cases hk : parseDictGetRefArray (readObjectAt bytes off) kidsKey ≠ []
      · rw [if_pos hk] at h
        exact collectKidsWith_extends _ (fun k b r2 h2 => ih bytes m k b r2 h2) _ boxes r h
      · rw [if_neg hk] at h
        by_cases hc : parseDictGetNumber (readObjectAt bytes off) countKey = some (some 0)
        · rw [if_pos hc] at h
          exact ⟨[], by simp [← Option.some.inj h]⟩
        · rw [if_neg hc] at h
          cases hm : parseMediaBox (readObjectAt bytes off) with
          | some box =>
            rw [hm] at h
            exact ⟨[box], by simp [← Option.some.inj h]⟩
          | none =>
            rw [hm] at h
            exact ⟨[], by simp [← Option.some.inj h]⟩

theorem collectKidsWith_congr
    (step step2 : Nat → List PageBox → Option (Bool × List PageBox))
    (hstep : ∀ k b r, step k b = some r → step2 k b = some r) :
    ∀ kids boxes r, collectKidsWith step kids boxes = some r →
      collectKidsWith step2 kids boxes = some r := by
  intro kids
  induction kids with
  | nil => intro boxes r h; exact h
  | cons k t ih =>
    intro boxes r h
    simp only [collectKidsWith] at h ⊢
    cases hs : step k boxes with
    | none => rw [hs] at h; cases h
    | some p =>
      rw [hs] at h
      rw [hstep k boxes p hs]
      obtain ⟨ok, b⟩ := p
      cases ok with
      | false => exact h
      | true => exact ih b r h

theorem collectPages_mono : ∀ (fuel fuel2 : Nat), fuel ≤ fuel2 →
    ∀ (bytes : List Nat) (xrefMap : XrefAssoc) (objNum : Nat) (boxes : List PageBox)
    (r : Bool × List PageBox),
    collectPages bytes xrefMap fuel objNum boxes = some r →
    collectPages bytes xrefMap fuel2 objNum boxes = some r := by
  intro fuel
  induction fuel with
  | zero =>
    intro fuel2 _ bytes m objNum boxes r h
    rw [collectPages_zero] at h
    cases h
  | succ n ih =>
    intro fuel2 hle bytes m objNum boxes r h
    cases fuel2 with
    | zero => omega
    | succ n2 =>
      rw [collectPages_succ] at h ⊢
      cases hg : mapGet m (some (objNum : Int)) with
      | none => rw [hg] at h; exact h
      | some off =>
        rw [hg] at h
        simp only at h ⊢
        by_cases hk : parseDictGetRefArray (readObjectAt bytes off) kidsKey ≠ []
        · rw [if_pos hk] at h ⊢
          exact collectKidsWith_congr _ _
            (fun k b r2 h2 => ih n2 (by omega) bytes m k b r2 h2) _ boxes r h
        · rw [if_neg hk] at h ⊢
          exact h

theorem parsePdfStructure_fuel_mono (inflate : JsStr → Option JsStr) (bytes : List Nat)
    (fuel fuel2 : Nat) (hle : fuel ≤ fuel2)
    (hterm : parsePdfStructure inflate fuel bytes ≠ none) :
    parsePdfStructure inflate fuel2 bytes = parsePdfStructure inflate fuel bytes := by
  unfold parsePdfStructure at hterm ⊢
  cases hp : parsePrelude inflate bytes with
  | none => rfl
  | some mp =>
    obtain ⟨m, p⟩ := mp
    rw [hp] at hterm
    simp only at hterm ⊢
    revert hterm
    cases hc : collectPages bytes m fuel p [] with
    | none => intro hterm; exact absurd rfl hterm
    | some r =>
      intro hterm
      rw [collectPages_mono fuel fuel2 hle bytes m p [] r hc]

theorem fallback_pageCount_pos (bytes : List Nat) (s : PDFStructure)
    (h : fallbackPageCountAndBoxes bytes = some s) : 1 ≤ s.pageCount := by
  unfold fallbackPageCountAndBoxes at h
  simp only at h
  split at h
  · cases h
  · rename_i hcond
    rw [← Option.some.inj h]
    have h1 := (not_or.mp hcond).1
    exact Nat.one_le_iff_ne_zero.mpr h1

/-- C10: for every input buffer, whenever `parsePdfStructure` returns a
non-null `PDFStructure`, its `pageCount` is at least 1: the walk-success
branch requires a nonempty box list, and the fallback requires a positive
`/Count`, so a successful result never reports zero pages. -/
theorem c10_pageCount_pos (inflate : JsStr → Option JsStr) (fuel : Nat) (bytes : List Nat)
    (s : PDFStructure) (h : parsePdfStructure inflate fuel bytes = some (some s)) :
    1 ≤ s.pageCount := by
  unfold parsePdfStructure at h
  revert h
  cases hp : parsePrelude inflate bytes with
  | none => intro h; simp at h
  | some mp =>
    obtain ⟨m, p⟩ := mp
    cases hc : collectPages bytes m fuel p [] with
    | none => intro h; simp [hc] at h
    | some r =>
      obtain ⟨ok, boxes⟩ := r
      cases ok with
      | false =>
        intro h
        simp only at h
        rw [hc] at h
        simp only at h
        exact fallback_pageCount_pos bytes s (Option.some.inj h)
      | true =>
        intro h
        simp only at h
        rw [hc] at h
        simp only at h
        by_cases hz : boxes.length = 0
        · rw [if_pos hz] at h
          exact fallback_pageCount_pos bytes s (Option.some.inj h)
        · rw [if_neg hz] at h
          have he := Option.some.inj (Option.some.inj h)
          rw [← he]
          exact Nat.one_le_iff_ne_zero.mpr hz

/-- witness for C10 at a concrete one-page buffer. -/
theorem c10_witness :
    1 ≤ (PDFStructure.mk 1 [PageBox.mk (some 612) (some 792) (some 816) (some 1056)]).pageCount :=
  c10_pageCount_pos noInflate 9 bufBase
    (PDFStructure.mk 1 [PageBox.mk (some 612) (some 792) (some 816) (some 1056)])
    (by with_unfolding_all decide)

/-- C7, counterexample: `bufShifted` carries four junk bytes before the
`%PDF-1.4` signature, so it does not begin with the signature at its first
bytes, yet `parsePdfStructure` succeeds with a full page list, because the
source's header regex is unanchored within the first 20 bytes. -/
theorem c7_counterexample :
    matchPdfHeader bufShifted = none ∧
    parsePdfStructure noInflate 9 bufShifted =
      some (some ⟨1, [⟨some 612, some 792, some 816, some 1056⟩]⟩) ∧
    parsePdfStructure noInflate 9 bufShifted ≠ some none := by
  have h2 : parsePdfStructure noInflate 9 bufShifted =
      some (some ⟨1, [⟨some 612, some 792, some 816, some 1056⟩]⟩) := by
    with_unfolding_all decide
  exact ⟨by with_unfolding_all decide, h2, by rw [h2]; simp⟩

/-- C7, amended: for every buffer in which no `%PDF-<major>.<minor>` match
occurs anywhere within the first 20 bytes, `parsePdfStructure` returns null
regardless of all later content, and no fallback scan result is returned. -/
theorem c7_header_null (inflate : JsStr → Option JsStr) (fuel : Nat) (bytes : List Nat)
    (h : pdfHeaderTest (bytesToStr bytes 0 20) = false) :
    parsePdfStructure inflate fuel bytes = some none := by
  unfold parsePdfStructure parsePrelude
  rw [h]
  simp

/-- witness for C7 at a concrete signature-free buffer. -/
theorem c7_witness :
    pdfHeaderTest (bytesToStr bufNoSig 0 20) = false ∧
    parsePdfStructure noInflate 3 bufNoSig = some none :=
  ⟨by with_unfolding_all decide,
   c7_header_null noInflate 3 bufNoSig (by with_unfolding_all decide)⟩

/-- C1, counterexample: in `bufNoPages` the catalog object resolves (object 1
at offset 9) but carries no `/Pages` reference, a failure of the claim's
Root/Pages resolution step; the fallback scan would return five default
pages, yet `parsePdfStructure` returns null without running it. -/
theorem c1_counterexample :
    mapGet (parseXrefTable bufNoPages 87) (some 1) = some 9 ∧
    parseDictGetRef (readObjectAt bufNoPages 9) pagesKey = none ∧
    fallbackPageCountAndBoxes bufNoPages = some ⟨5, List.replicate 5 defaultPageBox⟩ ∧
    parsePdfStructure noInflate 9 bufNoPages = some none ∧
    parsePdfStructure noInflate 9 bufNoPages ≠
      some (fallbackPageCountAndBoxes bufNoPages) := by
  have h3 : fallbackPageCountAndBoxes bufNoPages = some ⟨5, List.replicate 5 defaultPageBox⟩ := by
    with_unfolding_all decide
  have h4 : parsePdfStructure noInflate 9 bufNoPages = some none := by
    with_unfolding_all decide
  refine ⟨by with_unfolding_all decide, by with_unfolding_all decide, h3, h4, ?_⟩
  rw [h3, h4]
  simp

/-- C1, amended: the fallback scan result is returned exactly when the
page-tree walk itself fails (some `/Kids` reference misses the map) or
collects zero boxes; the earlier resolution failures return null without
fallback, and a partial page list is never returned. -/
theorem c1_fallback_on_walk_failure (inflate : JsStr → Option JsStr) (fuel : Nat)
    (bytes : List Nat) (m : XrefAssoc) (p : Nat)
    (hpre : parsePrelude inflate bytes = some (m, p))
    (hwalk : (∃ bs, collectPages bytes m fuel p [] = some (false, bs)) ∨
      collectPages bytes m fuel p [] = some (true, [])) :
    parsePdfStructure inflate fuel bytes = some (fallbackPageCountAndBoxes bytes) := by
  unfold parsePdfStructure
  rw [hpre]
  rcases hwalk with ⟨bs, hw⟩ | hw <;> simp [hw]

/-- witness for C1 at a concrete buffer whose single kid reference is absent
from the xref map. -/
theorem c1_witness :
    parsePdfStructure noInflate 9 bufKidMissing =
      some (fallbackPageCountAndBoxes bufKidMissing) :=
  c1_fallback_on_walk_failure noInflate 9 bufKidMissing [(some 1, 9), (some 2, 58)] 2
    (by with_unfolding_all decide)
    (Or.inl ⟨[], by with_unfolding_all decide⟩)

/-- C2, counterexample: `bufStreamNoW` is classified as an xref stream and
`parseXrefStream` fails (missing `/W`); the fallback scan would return seven
default pages, yet `parsePdfStructure` returns null: the orchestration does
not proceed to the fallback path on an xref-stream failure. -/
theorem c2_counterexample :
    isClassicXref bufStreamNoW 67 = false ∧
    parseXrefStream noInflate bufStreamNoW 67 = none ∧
    fallbackPageCountAndBoxes bufStreamNoW = some ⟨7, List.replicate 7 defaultPageBox⟩ ∧
    parsePdfStructure noInflate 9 bufStreamNoW = some none ∧
    parsePdfStructure noInflate 9 bufStreamNoW ≠
      some (fallbackPageCountAndBoxes bufStreamNoW) := by
  have h3 : fallbackPageCountAndBoxes bufStreamNoW =
      some ⟨7, List.replicate 7 defaultPageBox⟩ := by with_unfolding_all decide
  have h4 : parsePdfStructure noInflate 9 bufStreamNoW = some none := by
    with_unfolding_all decide
  refine ⟨by with_unfolding_all decide, by with_unfolding_all decide, h3, h4, ?_⟩
  rw [h3, h4]
  simp

/-- C2, amended: when the startxref offset is classified as an xref stream
and `parseXrefStream` fails at any step (missing `/W`, bad bounds, or the
inflate capability throwing, which it catches), the failure is a returned
signal — the model is total, no exception escapes — and `parsePdfStructure`
returns null immediately; the `/Count` fallback is not attempted. -/
theorem c2_stream_failure_null (inflate : JsStr → Option JsStr) (fuel : Nat)
    (bytes : List Nat) (eofPos xrefOffset : Nat)
    (hlen : ¬ bytes.length < 100)
    (hhdr : pdfHeaderTest (bytesToStr bytes 0 20) = true)
    (heof : findLastEof bytes = some eofPos)
    (hsx : findStartXref bytes eofPos = some xrefOffset)
    (hcl : isClassicXref bytes xrefOffset = false)
    (hxs : parseXrefStream inflate bytes xrefOffset = none) :
    parsePdfStructure inflate fuel bytes = some none := by
  have hpre : parsePrelude inflate bytes = none := by
    unfold parsePrelude
    simp [hlen, hhdr, heof, hsx, hcl, hxs]
  unfold parsePdfStructure
  rw [hpre]

/-- witness for C2: `bufStream` carries a `/FlateDecode` xref stream, and
with an inflate capability that always throws, the caught inflate failure
yields null from the whole parse. -/
theorem c2_witness : parsePdfStructure noInflate 9 bufStream = some none :=
  c2_stream_failure_null noInflate 9 bufStream 331 172
    (by with_unfolding_all decide) (by with_unfolding_all decide)
    (by with_unfolding_all decide) (by with_unfolding_all decide)
    (by with_unfolding_all decide) (by with_unfolding_all decide)

/-- C3: the positivity invariant fails on the code.  In `bufNanBox` the leaf
MediaBox is `[ - 0 0 792 ]`; the capture `-` parses to `NaN` (modelled
`none`), the guard `widthPt <= 0` is false for `NaN`, and the parse succeeds
with a box whose `widthPt` is `NaN`, for which `0 < widthPt` is false. -/
theorem c3_nan_mediabox :
    parsePdfStructure noInflate 9 bufNanBox =
      some (some ⟨1, [⟨none, some 792, none, some 1056⟩]⟩) ∧
    jsLt (some 0) (none : JsNum) = false :=
  ⟨by with_unfolding_all decide, rfl⟩

/-- C8: a PDF encoded with a `/FlateDecode` xref stream (`bufStream`, with
the inflate capability agreeing with zlib on its stream) and the equivalent
classic-xref PDF with the same page content (`bufBase`) yield identical page
geometry. -/
theorem c8_xref_encoding_equiv :
    parsePdfStructure inflate8 9 bufStream = parsePdfStructure inflate8 9 bufBase ∧
    parsePdfStructure inflate8 9 bufStream =
      some (some ⟨1, [⟨some 612, some 792, some 816, some 1056⟩]⟩) := by
  have h1 : parsePdfStructure inflate8 9 bufStream =
      some (some ⟨1, [⟨some 612, some 792, some 816, some 1056⟩]⟩) := by
    with_unfolding_all decide
  have h2 : parsePdfStructure inflate8 9 bufBase =
      some (some ⟨1, [⟨some 612, some 792, some 816, some 1056⟩]⟩) := by
    with_unfolding_all decide
  exact ⟨h1.trans h2.symm, h1⟩

theorem collectCycle_diverges : ∀ (fuel : Nat) (acc : List PageBox),
    collectPages bufCycle [(some 1, 9), (some 2, 58)] fuel 2 acc = none := by
  intro fuel
  induction fuel with
  | zero => intro acc; rfl
  | succ n ih =>
    intro acc
    have e : collectPages bufCycle [(some 1, 9), (some 2, 58)] (n + 1) 2 acc =
        collectKidsWith (collectPages bufCycle [(some 1, 9), (some 2, 58)] n) [2] acc := by
      with_unfolding_all rfl
    rw [e]
    simp only [collectKidsWith]
    rw [ih acc]

/-- C9, counterexample: in `bufCycle` the `/Pages` object number 2 lists
itself as its only kid, and the naive recursion of `collectPages` revisits it
at every depth: no recursion depth suffices, so `parsePdfStructure` diverges
on this buffer. -/
theorem c9_counterexample : ParseDiverges noInflate bufCycle := by
  intro fuel
  have e : parsePdfStructure noInflate fuel bufCycle =
      match collectPages bufCycle [(some 1, 9), (some 2, 58)] fuel 2 [] with
      | none => none
      | some (false, _) => some (fallbackPageCountAndBoxes bufCycle)
      | some (true, pageBoxes) =>
        if pageBoxes.length = 0 then some (fallbackPageCountAndBoxes bufCycle)
        else some (some ⟨pageBoxes.length, pageBoxes⟩) := by
    with_unfolding_all rfl
  rw [e, collectCycle_diverges fuel []]

/-- C9, amended: the page-tree recursion of `parsePdfStructure` is unbounded:
whenever some finite recursion depth lets it return, every larger depth
returns the same result (so it terminates with a depth-independent answer on
such inputs), but on an adversarial cyclic `/Kids` graph no depth suffices
(see the counterexample) — the source has no worklist or visited set. -/
theorem c9_fuel_stability (inflate : JsStr → Option JsStr) (bytes : List Nat)
    (fuel fuel2 : Nat) (hle : fuel ≤ fuel2)
    (hterm : parsePdfStructure inflate fuel bytes ≠ none) :
    parsePdfStructure inflate fuel2 bytes = parsePdfStructure inflate fuel bytes :=
  parsePdfStructure_fuel_mono inflate bytes fuel fuel2 hle hterm

/-- witness for C9 at a concrete terminating buffer and depths 5 and 9. -/
theorem c9_witness : parsePdfStructure noInflate 9 bufBase = parsePdfStructure noInflate 5 bufBase :=
  c9_fuel_stability noInflate bufBase 5 9 (by omega) (by with_unfolding_all decide)

/-- C5: the page-tree walk only ever appends to the box list (so the final
`pageBoxes` extend the traversal prefix in depth-first, left-to-right kid
order), and on the concrete three-kid tree of `buf3kids` the parse returns
exactly the three distinct boxes in `/Kids` array order. -/
theorem c5_dfs_order :
    (∀ (bytes : List Nat) (xrefMap : XrefAssoc) (fuel objNum : Nat)
      (boxes : List PageBox) (r : Bool × List PageBox),
      collectPages bytes xrefMap fuel objNum boxes = some r → ∃ l, r.2 = boxes ++ l) ∧
    parsePdfStructure noInflate 9 buf3kids =
      some (some ⟨3, [⟨some 612, some 792, some 816, some 1056⟩,
                      ⟨some 595, some 842, some 793, some 1123⟩,
                      ⟨some 500, some 500, some 667, some 667⟩]⟩) :=
  ⟨fun bytes m fuel objNum boxes r h => collectPages_extends fuel bytes m objNum boxes r h,
   by with_unfolding_all decide⟩

/-- witness for C5 at a concrete leaf collection step. -/
theorem c5_witness :
    ∃ l, (([⟨some 612, some 792, some 816, some 1056⟩] : List PageBox) = [] ++ l) :=
  c5_dfs_order.1 bufBase [(some 3, 115)] 1 3 []
    (true, [⟨some 612, some 792, some 816, some 1056⟩]) (by with_unfolding_all decide)

theorem takeMinLength (l : List α) (k : Nat) : l.take (min l.length k) = l.take k := by
  rw [Nat.min_comm, ← List.take_take, List.take_length]

/-- C6: the fallback scan depends only on the first 512 KiB of the buffer,
and its value is: null when no `/Count N` match exists there or `N` is
outside `0 < N ≤ 50000`, and otherwise `N` identical default PageBoxes
`612x792` points, `816x1056` pixels. -/
theorem c6_fallback_scan :
    (∀ bytes : List Nat,
      fallbackPageCountAndBoxes bytes = fallbackPageCountAndBoxes (bytes.take 524288)) ∧
    (∀ bytes : List Nat, fallbackPageCountAndBoxes bytes =
      match scanFor matchCount (bytes.take 524288) with
      | none => none
      | some d =>
        if 0 < natOfDigits d ∧ natOfDigits d ≤ 50000 then
          some ⟨natOfDigits d,
            List.replicate (natOfDigits d) ⟨some 612, some 792, some 816, some 1056⟩⟩
        else none) := by
  have hbox : defaultPageBox = ⟨some 612, some 792, some 816, some 1056⟩ := by
    with_unfolding_all decide
  have hstr : ∀ bytes : List Nat, bytesToStr bytes 0 (min bytes.length 524288) = bytes.take 524288 := by
    intro bytes
    rw [bytesToStr, List.drop_zero, takeMinLength]
  have key : ∀ bytes : List Nat, fallbackPageCountAndBoxes bytes =
      match scanFor matchCount (bytes.take 524288) with
      | none => none
      | some d =>
        if 0 < natOfDigits d ∧ natOfDigits d ≤ 50000 then
          some ⟨natOfDigits d,
            List.replicate (natOfDigits d) ⟨some 612, some 792, some 816, some 1056⟩⟩
        else none := by
    intro bytes
    simp only [fallbackPageCountAndBoxes, hstr]
    cases hm : scanFor matchCount (bytes.take 524288) with
    | none => simp
    | some d =>
      simp only
      by_cases hn : natOfDigits d = 0 ∨ 50000 < natOfDigits d
      · rw [if_pos hn, if_neg (by omega)]
      · rw [if_neg hn, if_pos (by omega), hbox]
  refine ⟨?_, key⟩
  intro bytes
  rw [key bytes, key (bytes.take 524288), List.take_take, Nat.min_self]

theorem tableInsert_eq (objStart : Int) (entryLines : List JsStr) (m : XrefAssoc) :
    tableInsert objStart entryLines m =
      (subsectionEntries objStart entryLines).foldl (fun acc p => mapSet acc p.1 p.2) m := by
  unfold tableInsert subsectionEntries
  generalize entryLines.enum = el
  induction el generalizing m with
  | nil => rfl
  | cons a t ih =>
    simp only [List.foldl_cons, List.filterMap_cons]
    cases h : xrefEntryParse (trim a.2) with
    | none => exact ih m
    | some p =>
      obtain ⟨off, tag⟩ := p
      by_cases ht : tag = 110
      · simp only [if_pos ht, List.foldl_cons]
        exact ih (mapSet m (some (objStart + (a.1 : Int))) off)
      · simp only [if_neg ht]
        exact ih m

theorem tableGo_eq : ∀ (fuel : Nat) (lines : List JsStr) (m : XrefAssoc),
    tableGo fuel lines m =
      (tableEntriesOfLines fuel lines).foldl (fun acc p => mapSet acc p.1 p.2) m := by
  intro fuel
  induction fuel with
  | zero => intro lines m; rfl
  | succ n ih =>
    intro lines m
    cases lines with
    | nil => rfl
    | cons l rest =>
      simp only [tableGo, tableEntriesOfLines]
      cases hw : wsTokens (trim l) with
      | nil => exact ih rest m
      | cons p0 ps =>
        cases ps with
        | nil => exact ih rest m
        | cons p1 pr =>
          simp only
          cases h0 : jsParseInt p0 with
          | none => exact ih rest m
          | some objStart =>
            cases h1 : jsParseInt p1 with
            | none => exact ih rest m
            | some count =>
              simp only
              by_cases hc : 0 ≤ count
              · rw [if_pos hc, if_pos hc, tableInsert_eq, ih, List.foldl_append]
              · rw [if_neg hc, if_neg hc]
                exact ih rest m

theorem parseXrefTable_eq (bytes : List Nat) (startOffset : Nat) :
    parseXrefTable bytes startOffset = mapOfList (tableInUseEntries bytes startOffset) := by
  unfold parseXrefTable tableInUseEntries mapOfList
  exact tableGo_eq _ _ []

theorem xrefRecLoop_eq (data : JsStr) (w0 w1 entryLen : Nat) (firstObj : Option Int) :
    ∀ (iters k pos : Nat) (m : XrefAssoc),
    xrefRecLoop data w0 w1 entryLen firstObj iters k pos m =
      ((streamRecords data w0 w1 entryLen firstObj iters k pos).foldl
        (fun acc p => mapSet acc p.1 p.2) m,
       streamPosAfter data entryLen iters pos) := by
  intro iters
  induction iters with
  | zero => intro k pos m; rfl
  | succ n ih =>
    intro k pos m
    simp only [xrefRecLoop, streamRecords, streamPosAfter]
    by_cases hb : data.length < pos + entryLen
    · simp only [if_pos hb, List.foldl_nil]
    · simp only [if_neg hb]
      by_cases ht : readIntBE data pos w0 = 1
      · simp only [if_pos ht, List.singleton_append, List.foldl_cons]
        exact ih (k + 1) (pos + entryLen) (mapSet m (firstObj.map (fun f => f + (k : Int))) (readIntBE data (pos + w0) w1))
      · simp only [if_neg ht, List.nil_append]
        exact ih (k + 1) (pos + entryLen) m

theorem xrefPairsLoop_eq (data : JsStr) (w0 w1 entryLen : Nat) :
    ∀ (pairs : List (Option Int × JsNum)) (m : XrefAssoc) (pos : Nat),
    (xrefPairsLoop data w0 w1 entryLen pairs (m, pos)).1 =
      (streamPairsRecords data w0 w1 entryLen pairs pos).foldl
        (fun acc p => mapSet acc p.1 p.2) m := by
  intro pairs
  induction pairs with
  | nil => intro m pos; rfl
  | cons fc rest ih =>
    obtain ⟨f, c⟩ := fc
    intro m pos
    simp only [xrefPairsLoop, streamPairsRecords]
    rw [xrefRecLoop_eq, ih, List.foldl_append]

/-- C4: the xref maps contain exactly the in-use entries.  For a classic
table, `parseXrefTable` builds precisely the map of the declarative list
`tableInUseEntries`, which keys each `n`-tagged line by `firstObjNum`
plus local index with its parsed offset, and omits every `f`-tagged line; for
an xref stream, the record loop builds precisely the map of
`streamPairsRecords`, which keeps exactly the records of type 1 (big-endian
width `w0`) as `objNum` mapped to field 2 (big-endian width `w1`), omitting
type-0 and type-2 records; and a truncated table (header announcing five
entries, two present) yields the entries parsed so far, not a failure. -/
theorem c4_xref_in_use_entries :
    (∀ (bytes : List Nat) (startOffset : Nat),
      parseXrefTable bytes startOffset = mapOfList (tableInUseEntries bytes startOffset)) ∧
    (∀ (data : JsStr) (w0 w1 w2 : Nat) (pairs : List (Option Int × JsNum)),
      (xrefPairsLoop data w0 w1 (w0 + w1 + w2) pairs ([], 0)).1 =
        mapOfList (streamPairsRecords data w0 w1 (w0 + w1 + w2) pairs 0)) ∧
    parseXrefTable bufTruncTable 0 = [(some 0, 11), (some 1, 22)] :=
  ⟨parseXrefTable_eq,
   fun data w0 w1 w2 pairs => xrefPairsLoop_eq data w0 w1 (w0 + w1 + w2) pairs [] 0,
   by with_unfolding_all decide⟩

end PdfParser

